import Mathlib

/-!
Verification of the CloudCamera offline buffering and reconciliation subsystem.

The repository is a camera progressive web app that uploads captured media to an
S3-compatible store and buffers media locally while offline.  This file gives a
shallow embedding of the subsystem's core:

* the S3 configuration record and its completeness check
  (`src/client/src/lib/s3.ts`),
* the gateway operations `uploadMediaToS3`, `uploadBufferedMediaToS3`,
  `getMediaList`, `deleteMediaFromS3` (same file), with the remote store
  modelled as an explicit environment and every `s3Client.send` recorded in a
  call trace,
* the durable queue operations of `src/client/src/lib/storage.ts`
  (`saveMediaToLocalBuffer`, `getBufferedMedia`, `removeFromLocalBuffer`,
  `clearLocalBuffer`) together with the IndexedDB-backed variant of the same
  operations found in the alternate storage module (`src/unnamed/part_004`),
* the admission and reconciliation drivers of the camera component
  (`handleTakePhoto` and `uploadBufferedMedia` in
  `src/client/src/components/Camera.tsx`).

Capture, rendering and the browser APIs are external collaborators; the media
record produced by capture is an input to the embedded functions.  JavaScript
exceptions are modelled with `Except`, and JavaScript truthiness of strings
(empty string is falsy) is modelled explicitly.
-/

/-- S3 connection configuration, `S3Config` of `src/unnamed/part_006`
(types module). -/
structure S3Config where
  endpoint : String
  bucket : String
  region : String
  accessKey : String
  secretKey : String
deriving DecidableEq, Repr

/-- A media record, `MediaItem` of `src/unnamed/part_006`.  The binary blob is
opaque; it is modelled by an optional string of contents. -/
structure MediaItem where
  key : String
  type : String
  size : Nat
  date : String
  url : String
  blob : Option String := none
  thumbnail : Option String := none
  duration : Option Nat := none
deriving DecidableEq, Repr

/-- One call on the underlying network transport: a single `s3Client.send`
of a put, delete or list command. -/
inductive NetCall where
  | putObject (bucket key contentType : String) (metadata : List (String × String))
  | deleteObject (bucket key : String)
  | listObjects (bucket : String)
deriving DecidableEq, Repr

/-- The object key named by a transport call, if any. -/
def NetCall.objKey : NetCall → Option String
  | NetCall.putObject _ k _ _ => some k
  | NetCall.deleteObject _ k => some k
  | NetCall.listObjects _ => none

/-- Errors surfaced by the gateway: the explicit
"S3 configuration is incomplete" throw, and any failure raised by the
S3 client itself. -/
inductive S3Error where
  | configIncomplete
  | transport
deriving DecidableEq, Repr

instance {ε α : Type} [DecidableEq ε] [DecidableEq α] : DecidableEq (Except ε α) := fun x y =>
  match x, y with
  | Except.ok a, Except.ok b =>
    if h : a = b then isTrue (congrArg Except.ok h)
    else isFalse (fun hc => h (Except.ok.inj hc))
  | Except.error a, Except.error b =>
    if h : a = b then isTrue (congrArg Except.error h)
    else isFalse (fun hc => h (Except.error.inj hc))
  | Except.ok _, Except.error _ => isFalse (fun hc => Except.noConfusion hc)
  | Except.error _, Except.ok _ => isFalse (fun hc => Except.noConfusion hc)

/-- Whether an `Except` result of a gateway call is a success. -/
def exOk : Except S3Error Unit → Bool
  | Except.ok _ => true
  | Except.error _ => false

/-- A remote object as it appears in a `ListObjectsV2` response
(`response.Contents`); every field of the AWS response is optional. -/
structure RemoteObject where
  key : Option String := none
  size : Option Nat := none
  lastModified : Option String := none
deriving DecidableEq, Repr

/-- The remote store and ambient environment: which transport calls succeed,
the listing the store returns, the signed-url resolver (local presigning, not a
transport call), and the current time used as a fallback date. -/
structure RemoteEnv where
  send : NetCall → Bool
  contents : Option (List RemoteObject) := none
  signedUrl : String → String := fun k => k
  nowIso : String := ""

/-!
The JavaScript string operations the source uses (`trim`, `split`,
`startsWith`, `includes`, `replace`, truthiness) are embedded as structural
recursions over the character list of a string, so that every definition can
be evaluated on concrete inputs inside proofs.
-/

/-- Whether the character list `p` is an initial segment of `l`
(JavaScript `startsWith`, on characters). -/
def leadsWith : List Char → List Char → Bool
  | [], _ => true
  | _ :: _, [] => false
  | p :: ps, c :: cs => p == c && leadsWith ps cs

/-- JavaScript `s.startsWith(pat)`. -/
def jsStartsWith (s pat : String) : Bool :=
  leadsWith pat.data s.data

/-- JavaScript truthiness of a string: non-empty. -/
def jsTruthy (s : String) : Bool :=
  !s.data.isEmpty

/-- JavaScript truthiness of an optional string: present and non-empty. -/
def optStrTruthy : Option String → Bool
  | some s => jsTruthy s
  | none => false

/-- Whether the pattern occurs as a contiguous subsequence of the list
(JavaScript `includes`, on characters). -/
def containsSub (pat : List Char) : List Char → Bool
  | [] => pat.isEmpty
  | c :: cs => leadsWith pat (c :: cs) || containsSub pat cs

/-- JavaScript `s.includes(pat)`. -/
def strIncludes (s pat : String) : Bool :=
  containsSub pat.data s.data

/-- Replace the first occurrence of `pat` in the list by `rep`
(JavaScript `replace` with a string pattern replaces only the first
occurrence). -/
def replaceFirstL (pat rep : List Char) : List Char → List Char
  | [] => []
  | c :: cs =>
    if leadsWith pat (c :: cs) then rep ++ (c :: cs).drop pat.length
    else c :: replaceFirstL pat rep cs

/-- JavaScript `s.replace(pat, rep)` for a non-empty string pattern. -/
def replaceFirst (s pat rep : String) : String :=
  String.mk (replaceFirstL pat.data rep.data s.data)

/-- The whitespace characters trimmed by JavaScript `trim`. -/
def jsWhitespace (c : Char) : Bool :=
  c == ' ' || c == '\t' || c == '\n' || c == '\r' || c == '\x0b' || c == '\x0c'

/-- Drop leading whitespace from a character list. -/
def dropWhite : List Char → List Char
  | [] => []
  | c :: cs => if jsWhitespace c then dropWhite cs else c :: cs

/-- JavaScript `s.trim()` is empty: the string consists only of whitespace.
This is the only use of `trim` in the source (`!field.trim()`). -/
def jsBlank (s : String) : Bool :=
  (dropWhite s.data).isEmpty

/-- JavaScript `s.split(sep)` for a single-character separator (the source
only splits on a dot), on characters. -/
def splitOnChar (sep : Char) : List Char → List (List Char)
  | [] => [[]]
  | c :: cs =>
    let r := splitOnChar sep cs
    if c == sep then [] :: r
    else
      match r with
      | [] => [[c]]
      | h :: t => (c :: h) :: t

/-- JavaScript `key.split(".")`. -/
def splitDots (s : String) : List String :=
  (splitOnChar '.' s.data).map String.mk

/-- The config completeness guard repeated at the head of every gateway
operation in `src/client/src/lib/s3.ts`: every field must be non-empty after
trimming (`!config.endpoint.trim() || ...`). -/
def configComplete (config : S3Config) : Bool :=
  !jsBlank config.endpoint && !jsBlank config.bucket &&
  !jsBlank config.region && !jsBlank config.accessKey &&
  !jsBlank config.secretKey

/-- Derived thumbnail object name as computed by the gateway:
the JavaScript template is `media.key.split(".")[0]` followed by the literal
suffix. -/
def thumbnailKey (key : String) : String :=
  (splitDots key).headD "" ++ "_thumbnail.jpg"

/-- The thumbnail `PutObjectCommand` built by `uploadMediaToS3`
(`src/client/src/lib/s3.ts` lines 48 to 60). -/
def thumbPutCall (media : MediaItem) (config : S3Config) : NetCall :=
  NetCall.putObject config.bucket (thumbnailKey media.key) "image/jpeg"
    [("original-media-key", media.key), ("media-date", media.date),
     ("media-type", "thumbnail")]

/-- The main-payload `PutObjectCommand` built by `uploadMediaToS3`
(`src/client/src/lib/s3.ts` lines 64 to 78). -/
def mainPutCall (media : MediaItem) (config : S3Config) : NetCall :=
  NetCall.putObject config.bucket media.key media.type
    ([("media-date", media.date),
      ("media-type", if jsStartsWith media.type "video/" then "video" else "image")] ++
     (match media.duration with
      | some d => [("video-duration", toString d)]
      | none => []))

/-- Upload of a single media item, `uploadMediaToS3` of
`src/client/src/lib/s3.ts` lines 27 to 79.  After the completeness guard, a
video item with a (truthy) thumbnail first uploads the thumbnail object; that
send is not guarded by a try/catch, so its failure propagates and aborts the
whole operation.  Then the main payload is uploaded.  The second component is
the trace of transport calls attempted, in order.  Fetching the thumbnail data
url is a local decode, not a transport call. -/
def uploadMediaToS3 (media : MediaItem) (config : S3Config) (env : RemoteEnv) :
    Except S3Error Unit × List NetCall :=
  if configComplete config then
    let thumbStep : Except S3Error Unit × List NetCall :=
      if jsStartsWith media.type "video/" && optStrTruthy media.thumbnail then
        let tcall := thumbPutCall media config
        if env.send tcall then (Except.ok (), [tcall])
        else (Except.error S3Error.transport, [tcall])
      else (Except.ok (), [])
    match thumbStep with
    | (Except.error e, calls) => (Except.error e, calls)
    | (Except.ok _, calls) =>
      let mcall := mainPutCall media config
      if env.send mcall then (Except.ok (), calls ++ [mcall])
      else (Except.error S3Error.transport, calls ++ [mcall])
  else (Except.error S3Error.configIncomplete, [])

/-- The upload loop of `uploadBufferedMediaToS3` (`src/client/src/lib/s3.ts`
lines 96 to 99): each item is awaited in order, and an exception from any item
propagates immediately, aborting the loop. -/
def uploadBufferedLoop (items : List MediaItem) (config : S3Config) (env : RemoteEnv) :
    Except S3Error Unit × List NetCall :=
  match items with
  | [] => (Except.ok (), [])
  | m :: rest =>
    match uploadMediaToS3 m config env with
    | (Except.error e, calls) => (Except.error e, calls)
    | (Except.ok _, calls) =>
      match uploadBufferedLoop rest config env with
      | (r, calls2) => (r, calls ++ calls2)

/-- Reconciliation pass over the buffered items, `uploadBufferedMediaToS3` of
`src/client/src/lib/s3.ts` lines 82 to 103.  `queue` is the current content of
the durable local buffer; `clearLocalBuffer()` (which empties it) runs only
after the loop finished without an exception, so a failing item leaves the
buffer untouched.  The alternate version in `src/unnamed/part_005` has the same
control flow (it additionally re-derives each blob from the stored base64 data
url before uploading). -/
def uploadBufferedMediaToS3 (items : List MediaItem) (config : S3Config)
    (env : RemoteEnv) (queue : List MediaItem) :
    (Except S3Error Unit × List NetCall) × List MediaItem :=
  if configComplete config then
    match uploadBufferedLoop items config env with
    | (Except.ok _, calls) => ((Except.ok (), calls), [])
    | (Except.error e, calls) => ((Except.error e, calls), queue)
  else ((Except.error S3Error.configIncomplete, []), queue)

/-- Last-write-wins lookup in the accumulator object built by the thumbnail
`reduce` of `getMediaList` (a later assignment to the same key overwrites an
earlier one). -/
def lookupLast (l : List (String × String)) (k : String) : Option String :=
  (l.reverse.find? (fun p => p.1 == k)).map (fun p => p.2)

/-- Conversion of one listed remote object to a `MediaItem`, the body of the
`mainObjects.map` in `getMediaList` (`src/client/src/lib/s3.ts` lines 149 to
176).  An object without a key maps to `null` (here `none`). -/
def mediaItemOfRemote (config : S3Config) (env : RemoteEnv)
    (thumbs : List (String × String)) (obj : RemoteObject) : Option MediaItem :=
  match obj.key with
  | none => none
  | some k =>
    let url := env.signedUrl k
    let keyWithoutExt := (splitDots k).headD ""
    let thumbnail :=
      match lookupLast thumbs keyWithoutExt with
      | some tk => config.endpoint ++ "/" ++ config.bucket ++ "/" ++ tk
      | none => url
    let isVideo := jsStartsWith k "video"
    some { key := k
           type := if isVideo then "video/webm" else "image/jpeg"
           size := obj.size.getD 0
           date := match obj.lastModified with
                   | some d => if jsTruthy d then d else env.nowIso
                   | none => env.nowIso
           url := url
           blob := none
           thumbnail := if isVideo then some thumbnail else none
           duration := none }

/-- Listing of remote media, `getMediaList` of `src/client/src/lib/s3.ts`
lines 106 to 180: completeness guard, one `ListObjectsV2` transport call,
separation of primary objects from thumbnail objects by the `_thumbnail`
naming convention, association of each primary object with its thumbnail, and
conversion to media items with `null` entries filtered out. -/
def getMediaList (config : S3Config) (env : RemoteEnv) :
    Except S3Error (List MediaItem) × List NetCall :=
  if configComplete config then
    let call := NetCall.listObjects config.bucket
    if env.send call then
      match env.contents with
      | none => (Except.ok [], [call])
      | some contents =>
        let mainObjects := contents.filter (fun o =>
          !(match o.key with
            | some k => strIncludes k "_thumbnail"
            | none => false))
        let thumbs := (contents.filter (fun o =>
            match o.key with
            | some k => strIncludes k "_thumbnail"
            | none => false)).foldl
          (fun acc o =>
            match o.key with
            | some k => acc ++ [(replaceFirst k "_thumbnail.jpg" "", k)]
            | none => acc) []
        (Except.ok ((mainObjects.map (mediaItemOfRemote config env thumbs)).reduceOption),
         [call])
    else (Except.error S3Error.transport, [call])
  else (Except.error S3Error.configIncomplete, [])

/-- Deletion of a media item, `deleteMediaFromS3` of `src/client/src/lib/s3.ts`
lines 183 to 223: completeness guard, delete of the primary object (failure
propagates), then, for a video, a delete of the derived thumbnail object whose
outcome is swallowed by the surrounding try/catch (logged, never surfaced). -/
def deleteMediaFromS3 (media : MediaItem) (config : S3Config) (env : RemoteEnv) :
    Except S3Error Unit × List NetCall :=
  if configComplete config then
    let dcall := NetCall.deleteObject config.bucket media.key
    if env.send dcall then
      if jsStartsWith media.type "video/" then
        let tcall := NetCall.deleteObject config.bucket (thumbnailKey media.key)
        (Except.ok (), [dcall, tcall])
      else (Except.ok (), [dcall])
    else (Except.error S3Error.transport, [dcall])
  else (Except.error S3Error.configIncomplete, [])

/-- Enqueue into the localStorage-backed buffer, `saveMediaToLocalBuffer` of
`src/client/src/lib/storage.ts` lines 19 to 28: the existing buffer is loaded
and the new item is pushed unconditionally, with no key check.  The buffer is
modelled at the level of its parsed JSON content, a list of media items. -/
def saveMediaToLocalBuffer (media : MediaItem) (buffer : List MediaItem) :
    List MediaItem :=
  buffer ++ [media]

/-- Reading the localStorage-backed buffer, `getBufferedMedia` of
`src/client/src/lib/storage.ts` lines 31 to 39.  The store state is the raw
string under the buffer key, if present; `parse` models `JSON.parse`, with
`none` for a parse exception, which the try/catch turns into an empty list.
A missing entry, and an empty-string entry (falsy), also yield an empty
list. -/
def getBufferedMedia (parse : String → Option (List MediaItem))
    (store : Option String) : List MediaItem :=
  match store with
  | none => []
  | some buffer => if jsTruthy buffer then (parse buffer).getD [] else []

/-- Removal from the localStorage-backed buffer, `removeFromLocalBuffer` of
`src/client/src/lib/storage.ts` lines 47 to 51: the buffer is re-written as
the filter of the old buffer keeping every item whose key differs.  The
IndexedDB variant (`src/unnamed/part_004` lines 69 to 75, `store.delete(key)`)
has the same effect on the stored records. -/
def removeFromLocalBuffer (key : String) (buffer : List MediaItem) :
    List MediaItem :=
  buffer.filter (fun item => item.key != key)

/-- Clearing the buffer, `clearLocalBuffer` of `src/client/src/lib/storage.ts`
lines 42 to 44. -/
def clearLocalBuffer (_buffer : List MediaItem) : List MediaItem :=
  []

/-- Enqueue into the IndexedDB-backed buffer of the alternate storage module,
`saveMediaToLocalBuffer` of `src/unnamed/part_004` lines 38 to 44: a
`store.put(media)` on an object store with `keyPath` set to the key field
replaces the record with the same key if present, otherwise adds the
record. -/
def saveMediaToLocalBufferIDB (media : MediaItem) (buffer : List MediaItem) :
    List MediaItem :=
  if buffer.any (fun item => item.key == media.key) then
    buffer.map (fun item => if item.key == media.key then media else item)
  else buffer ++ [media]

/-- Admission decision of the capture path, the routing logic of
`handleTakePhoto` in `src/client/src/components/Camera.tsx` lines 113 to 128:
when connected and the bucket string is truthy, attempt an immediate upload
and fall back to the buffer on failure; otherwise go straight to the buffer.
Capture itself (producing `media`) is an external collaborator.  Returns the
new buffer content and the transport calls made. -/
def handleTakePhoto (isConnected : Bool) (config : S3Config) (media : MediaItem)
    (env : RemoteEnv) (buffer : List MediaItem) :
    List MediaItem × List NetCall :=
  if isConnected && jsTruthy config.bucket then
    match uploadMediaToS3 media config env with
    | (Except.ok _, calls) => (buffer, calls)
    | (Except.error _, calls) => (saveMediaToLocalBuffer media buffer, calls)
  else (saveMediaToLocalBuffer media buffer, [])

/-- Reconciliation trigger handler, `uploadBufferedMedia` of
`src/client/src/components/Camera.tsx` lines 243 to 255 (identical logic in
`src/unnamed/part_002` lines 34 to 46): guard on connectivity and bucket
truthiness, then run the buffered pass when the buffer is non-empty; any
exception is caught and surfaced as the aggregated error toast.  Returns the
resulting buffer, the transport calls, and whether the error toast was
shown. -/
def uploadBufferedMedia (isConnected : Bool) (config : S3Config)
    (env : RemoteEnv) (buffer : List MediaItem) :
    List MediaItem × List NetCall × Bool :=
  if isConnected && jsTruthy config.bucket then
    if buffer.length > 0 then
      match uploadBufferedMediaToS3 buffer config env buffer with
      | ((Except.ok _, calls), q) => (q, calls, false)
      | ((Except.error _, calls), q) => (q, calls, true)
    else (buffer, [], false)
  else (buffer, [], false)

/-- Modelled from the spec: the naming convention for derived thumbnails,
the primary key with its extension (the part after the last dot) removed,
followed by the literal suffix.  `joinDots` rejoins the dot-separated parts
that remain after dropping the extension. -/
def joinDots : List String → String
  | [] => ""
  | [s] => s
  | s :: rest => s ++ "." ++ joinDots rest

/-- Modelled from the spec: `<primaryKeyWithoutExtension>_thumbnail.jpg`,
where removing the extension removes the final dot-separated part (a key
without any dot has no extension to remove). -/
def specThumbnailName (key : String) : String :=
  (if (splitDots key).length ≤ 1 then key
   else joinDots (splitDots key).dropLast) ++ "_thumbnail.jpg"

/-!
Concrete fixtures used to evaluate the embedded operations in the theorems
below: two configurations (one complete, one with a blank and one with a
whitespace-only field), photo and video records, and remote environments that
succeed everywhere, fail one specific object key, or fail every call that
targets a thumbnail object.
-/

/-- A complete configuration: every field non-blank. -/
def cfgA : S3Config :=
  { endpoint := "http://s3.local", bucket := "bucket", region := "us-east-1",
    accessKey := "AKIA", secretKey := "SECRET" }

/-- An incomplete configuration: the access key is empty while the bucket is
non-empty. -/
def cfgNoKey : S3Config :=
  { endpoint := "http://s3.local", bucket := "bucket", region := "us-east-1",
    accessKey := "", secretKey := "SECRET" }

/-- An incomplete configuration: the secret key is whitespace-only. -/
def cfgWhite : S3Config :=
  { endpoint := "http://s3.local", bucket := "bucket", region := "us-east-1",
    accessKey := "AKIA", secretKey := "   " }

/-- A photo record. -/
def itemA : MediaItem :=
  { key := "photo_1.jpg", type := "image/jpeg", size := 1,
    date := "2024-01-01T00:00:00Z", url := "u1", blob := some "b1" }

/-- A second photo record with a distinct key. -/
def itemB : MediaItem :=
  { key := "photo_2.jpg", type := "image/jpeg", size := 2,
    date := "2024-01-01T00:00:01Z", url := "u2", blob := some "b2" }

/-- A video record carrying a thumbnail. -/
def itemV : MediaItem :=
  { key := "video_9.webm", type := "video/webm", size := 5,
    date := "2024-01-02T00:00:00Z", url := "u9", blob := some "vb",
    thumbnail := some "data:image/jpeg;base64,xyz", duration := some 3 }

/-- A video record whose key contains more than one dot. -/
def itemDots : MediaItem :=
  { key := "a.b.c", type := "video/webm", size := 1,
    date := "2024-01-03T00:00:00Z", url := "ud", blob := some "db",
    thumbnail := some "data:image/jpeg;base64,t", duration := some 1 }

/-- An environment in which every transport call succeeds. -/
def envAllOk : RemoteEnv := { send := fun _ => true }

/-- An environment in which every call succeeds except those targeting the
key of the second photo record. -/
def envFailB : RemoteEnv :=
  { send := fun c => c.objKey != some "photo_2.jpg" }

/-- An environment in which every call succeeds except those targeting a
thumbnail object. -/
def envFailThumb : RemoteEnv :=
  { send := fun c =>
      match c.objKey with
      | some k => !(strIncludes k "_thumbnail")
      | none => true }

/-- C2: for every gateway operation (single-item upload, listing, delete) and
every configuration in which some field is an empty or whitespace-only
string, the call fails with the config-incomplete error and the trace of
transport calls is empty (zero calls on the underlying transport). -/
theorem c2_config_gate (config : S3Config) (media : MediaItem) (env : RemoteEnv)
    (h : jsBlank config.endpoint = true ∨ jsBlank config.bucket = true ∨
         jsBlank config.region = true ∨ jsBlank config.accessKey = true ∨
         jsBlank config.secretKey = true) :
    uploadMediaToS3 media config env = (Except.error S3Error.configIncomplete, []) ∧
    getMediaList config env = (Except.error S3Error.configIncomplete, []) ∧
    deleteMediaFromS3 media config env = (Except.error S3Error.configIncomplete, []) := by
  have hc : configComplete config = false := by
    unfold configComplete
    rcases h with h | h | h | h | h <;> simp [h]
  refine ⟨?_, ?_, ?_⟩ <;>
    simp [uploadMediaToS3, getMediaList, deleteMediaFromS3, hc]

/-- Witness for C2 at a whitespace-only secret key. -/
theorem c2_config_gate_witness :
    (jsBlank cfgWhite.endpoint = true ∨ jsBlank cfgWhite.bucket = true ∨
     jsBlank cfgWhite.region = true ∨ jsBlank cfgWhite.accessKey = true ∨
     jsBlank cfgWhite.secretKey = true) ∧
    uploadMediaToS3 itemA cfgWhite envAllOk = (Except.error S3Error.configIncomplete, []) ∧
    getMediaList cfgWhite envAllOk = (Except.error S3Error.configIncomplete, []) ∧
    deleteMediaFromS3 itemA cfgWhite envAllOk = (Except.error S3Error.configIncomplete, []) :=
  ⟨by decide, c2_config_gate cfgWhite itemA envAllOk (by decide)⟩

/-- C6: with connectivity down, a freshly captured record is enqueued into the
local buffer — starting from an empty buffer the buffer afterwards is exactly
that one record — and no transport call is made. -/
theorem c6_offline_capture (config : S3Config) (env : RemoteEnv) (media : MediaItem) :
    handleTakePhoto false config media env [] = ([media], []) := by
  simp [handleTakePhoto, saveMediaToLocalBuffer]

/-- C7: removing a key twice in a row gives the same buffer as removing it
once, and removing an absent key leaves the buffer unchanged; removal is a
total function and never errors. -/
theorem c7_safe_double_removal (key : String) (buffer : List MediaItem) :
    removeFromLocalBuffer key (removeFromLocalBuffer key buffer)
      = removeFromLocalBuffer key buffer ∧
    ((∀ item ∈ buffer, item.key ≠ key) → removeFromLocalBuffer key buffer = buffer) := by
  constructor
  · simp [removeFromLocalBuffer, List.filter_filter]
  · intro h
    unfold removeFromLocalBuffer
    rw [List.filter_eq_self]
    intro a ha
    simpa using h a ha

/-- Witness for C7 on a buffer that does not contain the removed key. -/
theorem c7_safe_double_removal_witness :
    removeFromLocalBuffer "absent.jpg" (removeFromLocalBuffer "absent.jpg" [itemA])
      = removeFromLocalBuffer "absent.jpg" [itemA] ∧
    removeFromLocalBuffer "absent.jpg" [itemA] = [itemA] :=
  ⟨(c7_safe_double_removal "absent.jpg" [itemA]).1,
   (c7_safe_double_removal "absent.jpg" [itemA]).2 (by decide)⟩

/-- C9: for a video record under a complete configuration, when the primary
delete succeeds, the delete operation issues the primary delete first and the
derived thumbnail delete second, and returns success regardless of the
thumbnail delete outcome (the try/catch swallows it). -/
theorem c9_delete_video (media : MediaItem) (config : S3Config) (env : RemoteEnv)
    (hc : configComplete config = true)
    (hv : jsStartsWith media.type "video/" = true)
    (hp : env.send (NetCall.deleteObject config.bucket media.key) = true) :
    deleteMediaFromS3 media config env =
      (Except.ok (), [NetCall.deleteObject config.bucket media.key,
                      NetCall.deleteObject config.bucket (thumbnailKey media.key)]) := by
  simp [deleteMediaFromS3, hc, hv, hp]

/-- Witness for C9 in an environment where the thumbnail delete fails: the
operation still succeeds and both deletes appear in order. -/
theorem c9_delete_video_witness :
    configComplete cfgA = true ∧
    jsStartsWith itemV.type "video/" = true ∧
    envFailThumb.send (NetCall.deleteObject cfgA.bucket itemV.key) = true ∧
    envFailThumb.send (NetCall.deleteObject cfgA.bucket (thumbnailKey itemV.key)) = false ∧
    deleteMediaFromS3 itemV cfgA envFailThumb =
      (Except.ok (), [NetCall.deleteObject cfgA.bucket itemV.key,
                      NetCall.deleteObject cfgA.bucket (thumbnailKey itemV.key)]) :=
  ⟨by decide, by decide, by decide, by decide,
   c9_delete_video itemV cfgA envFailThumb (by decide) (by decide) (by decide)⟩

/-- C10: reading the buffered-media queue is total and never errors: a missing
store entry yields the empty list, and an entry whose content does not parse
(the parse function models a throwing `JSON.parse`) also yields the empty
list. -/
theorem c10_buffer_read_total (parse : String → Option (List MediaItem))
    (store : Option String) :
    (store = none → getBufferedMedia parse store = []) ∧
    (∀ s, store = some s → parse s = none → getBufferedMedia parse store = []) := by
  constructor
  · intro h; subst h; rfl
  · intro s hs hp; subst hs
    simp [getBufferedMedia, hp]

/-- Witness for C10 at a missing entry and at unparsable content. -/
theorem c10_buffer_read_total_witness :
    getBufferedMedia (fun _ => none) none = [] ∧
    getBufferedMedia (fun _ => none) (some "not json") = [] :=
  ⟨(c10_buffer_read_total (fun _ => none) none).1 rfl,
   (c10_buffer_read_total (fun _ => none) (some "not json")).2 "not json" rfl rfl⟩

/-- C4 counterexample: for the video record `itemV` under the complete
configuration, in an environment that fails the thumbnail put, the upload
operation fails as a whole and its call trace contains no call targeting the
main payload key — the main payload upload is not attempted, contradicting
the claimed best-effort continuation. -/
theorem c4_counterexample :
    uploadMediaToS3 itemV cfgA envFailThumb
      = (Except.error S3Error.transport, [thumbPutCall itemV cfgA]) ∧
    ((uploadMediaToS3 itemV cfgA envFailThumb).2.all
      (fun c => c.objKey != some itemV.key)) = true := by
  refine ⟨by decide, by decide⟩

/-- C4 amended: for a video record carrying a truthy thumbnail under a
complete configuration, the thumbnail put is always the first transport call
(thumbnail-before-payload holds); if the thumbnail put fails, the whole
operation fails and the payload put is not attempted; only if the thumbnail
put succeeds is the payload put attempted, immediately after it. -/
theorem c4_thumbnail_first_abort (media : MediaItem) (config : S3Config)
    (env : RemoteEnv) (hc : configComplete config = true)
    (hv : jsStartsWith media.type "video/" = true)
    (ht : optStrTruthy media.thumbnail = true) :
    (uploadMediaToS3 media config env).2.head? = some (thumbPutCall media config) ∧
    (env.send (thumbPutCall media config) = false →
      uploadMediaToS3 media config env
        = (Except.error S3Error.transport, [thumbPutCall media config])) ∧
    (env.send (thumbPutCall media config) = true →
      (uploadMediaToS3 media config env).2
        = [thumbPutCall media config, mainPutCall media config]) := by
  unfold uploadMediaToS3
  rw [hc, hv, ht]
  by_cases hs : env.send (thumbPutCall media config) = true
  · simp only [hs, if_true, Bool.and_self, if_true]
    by_cases hm : env.send (mainPutCall media config) = true <;>
      simp [hm, hs]
  · simp only [Bool.not_eq_true] at hs
    simp [hs]

/-- Witness for C4 amended, at the video record and an environment failing
thumbnail puts. -/
theorem c4_thumbnail_first_abort_witness :
    configComplete cfgA = true ∧
    jsStartsWith itemV.type "video/" = true ∧
    optStrTruthy itemV.thumbnail = true ∧
    envFailThumb.send (thumbPutCall itemV cfgA) = false ∧
    (uploadMediaToS3 itemV cfgA envFailThumb).2.head? = some (thumbPutCall itemV cfgA) ∧
    uploadMediaToS3 itemV cfgA envFailThumb
      = (Except.error S3Error.transport, [thumbPutCall itemV cfgA]) :=
  ⟨by decide, by decide, by decide, by decide,
   (c4_thumbnail_first_abort itemV cfgA envFailThumb (by decide) (by decide) (by decide)).1,
   (c4_thumbnail_first_abort itemV cfgA envFailThumb (by decide) (by decide) (by decide)).2.1
     (by decide)⟩

/-- C5 counterexample: a reconciliation trigger with connectivity up, a
non-empty bucket, but an incomplete configuration (empty access key) and a
non-empty buffer is not a silent no-op: the buffer is unchanged and no
transport call is made, but the error toast is surfaced (third component
`true`). -/
theorem c5_counterexample :
    configComplete cfgNoKey = false ∧
    uploadBufferedMedia true cfgNoKey envAllOk [itemA] = ([itemA], [], true) := by
  refine ⟨by decide, by decide⟩

/-- C5 amended: when disconnected, or when the bucket string is falsy, the
reconciliation handler is a strict no-op (buffer unchanged, no transport
call, no error surfaced).  When connected with a truthy bucket but an
incomplete configuration and a non-empty buffer, the buffer is still
unchanged and no transport call is made, but the aggregated error notice is
surfaced. -/
theorem c5_guard_behavior (config : S3Config) (env : RemoteEnv)
    (buffer : List MediaItem) :
    uploadBufferedMedia false config env buffer = (buffer, [], false) ∧
    (jsTruthy config.bucket = false →
      ∀ conn, uploadBufferedMedia conn config env buffer = (buffer, [], false)) ∧
    (configComplete config = false → buffer ≠ [] →
      uploadBufferedMedia true config env buffer
        = (buffer, [], jsTruthy config.bucket)) := by
  refine ⟨?_, ?_, ?_⟩
  · simp [uploadBufferedMedia]
  · intro hb conn
    simp [uploadBufferedMedia, hb]
  · intro hic hne
    by_cases hb : jsTruthy config.bucket = true
    · have hlen : buffer.length > 0 := List.length_pos.mpr hne
      simp [uploadBufferedMedia, hb, hlen, uploadBufferedMediaToS3, hic]
    · simp only [Bool.not_eq_true] at hb
      simp [uploadBufferedMedia, hb]

/-- Witness for C5 amended at the incomplete-but-truthy-bucket configuration:
the pass surfaces the error notice while leaving the buffer unchanged. -/
theorem c5_guard_behavior_witness :
    uploadBufferedMedia false cfgNoKey envAllOk [itemA] = ([itemA], [], false) ∧
    (configComplete cfgNoKey = false ∧ [itemA] ≠ ([] : List MediaItem)) ∧
    uploadBufferedMedia true cfgNoKey envAllOk [itemA]
      = ([itemA], [], jsTruthy cfgNoKey.bucket) :=
  ⟨(c5_guard_behavior cfgNoKey envAllOk [itemA]).1,
   ⟨by decide, by decide⟩,
   (c5_guard_behavior cfgNoKey envAllOk [itemA]).2.2 (by decide) (by decide)⟩

/-- C8 counterexample: for the primary key with more than one dot, the
gateway derives the thumbnail name from the part before the *first* dot,
which differs from the key with its extension (the part after the last dot)
removed: the delete path issues a delete for that first-part name. -/
theorem c8_counterexample :
    (deleteMediaFromS3 itemDots cfgA envAllOk).2
      = [NetCall.deleteObject "bucket" "a.b.c",
         NetCall.deleteObject "bucket" "a_thumbnail.jpg"] ∧
    specThumbnailName "a.b.c" = "a.b_thumbnail.jpg" ∧
    thumbnailKey "a.b.c" ≠ specThumbnailName "a.b.c" := by
  refine ⟨by decide, by decide, by decide⟩

/-- C8 amended: both the upload path and the delete path derive the thumbnail
object name as the part of the key before the first dot followed by the
thumbnail suffix; for a key whose dot-split has exactly two parts, namely
stem and extension (the keys the application generates), this coincides with
the spec convention of removing the extension. -/
theorem c8_thumbnail_naming (media : MediaItem) (config : S3Config)
    (env : RemoteEnv) (stem ext : String)
    (hc : configComplete config = true)
    (hv : jsStartsWith media.type "video/" = true)
    (ht : optStrTruthy media.thumbnail = true)
    (hp : env.send (NetCall.deleteObject config.bucket media.key) = true)
    (hsplit : splitDots media.key = [stem, ext]) :
    (uploadMediaToS3 media config env).2.head? = some (thumbPutCall media config) ∧
    (deleteMediaFromS3 media config env).2
      = [NetCall.deleteObject config.bucket media.key,
         NetCall.deleteObject config.bucket (thumbnailKey media.key)] ∧
    thumbnailKey media.key = stem ++ "_thumbnail.jpg" ∧
    specThumbnailName media.key = stem ++ "_thumbnail.jpg" := by
  refine ⟨?_, ?_, ?_, ?_⟩
  · unfold uploadMediaToS3
    rw [hc, hv, ht]
    by_cases hs : env.send (thumbPutCall media config) = true
    · simp only [hs, if_true, Bool.and_self, if_true]
      by_cases hm : env.send (mainPutCall media config) = true <;> simp [hm]
    · simp only [Bool.not_eq_true] at hs
      simp [hs]
  · simp [deleteMediaFromS3, hc, hv, hp]
  · unfold thumbnailKey
    rw [hsplit]
    rfl
  · unfold specThumbnailName
    rw [hsplit]
    simp [joinDots]

/-- Witness for C8 amended at the video record `video_9.webm`. -/
theorem c8_thumbnail_naming_witness :
    splitDots itemV.key = ["video_9", "webm"] ∧
    thumbnailKey itemV.key = "video_9" ++ "_thumbnail.jpg" ∧
    specThumbnailName itemV.key = "video_9" ++ "_thumbnail.jpg" :=
  ⟨by decide,
   (c8_thumbnail_naming itemV cfgA envAllOk "video_9" "webm"
      (by decide) (by decide) (by decide) (by decide) (by decide)).2.2.1,
   (c8_thumbnail_naming itemV cfgA envAllOk "video_9" "webm"
      (by decide) (by decide) (by decide) (by decide) (by decide)).2.2.2⟩

/-- C3 counterexample: with the localStorage-backed queue of
`src/client/src/lib/storage.ts`, enqueueing the same record twice leaves two
records with that key in the buffer, not one. -/
theorem c3_counterexample :
    saveMediaToLocalBuffer itemA (saveMediaToLocalBuffer itemA []) = [itemA, itemA] ∧
    (saveMediaToLocalBuffer itemA (saveMediaToLocalBuffer itemA [])).countP
      (fun item => item.key == itemA.key) ≠ 1 := by
  refine ⟨by decide, by decide⟩

/-- Replacing, in a list, every item carrying the key of `r` by `r` itself
does not change how many items carry that key. -/
theorem countP_put_replace (r : MediaItem) (l : List MediaItem) :
    (l.map (fun item => if item.key == r.key then r else item)).countP
      (fun item => item.key == r.key)
      = l.countP (fun item => item.key == r.key) := by
  induction l with
  | nil => rfl
  | cons a t ih =>
    simp only [List.map_cons, List.countP_cons]
    rw [ih]
    cases h : (a.key == r.key) with
    | true => simp [h]
    | false => simp [h]

/-- One IndexedDB-style put of `r` into a buffer holding at most one entry
for the key of `r` leaves exactly one entry for that key. -/
theorem idb_put_countP (r : MediaItem) (l : List MediaItem)
    (h1 : l.countP (fun item => item.key == r.key) ≤ 1) :
    (saveMediaToLocalBufferIDB r l).countP (fun item => item.key == r.key) = 1 := by
  unfold saveMediaToLocalBufferIDB
  by_cases hany : (l.any fun item => item.key == r.key) = true
  · rw [if_pos hany, countP_put_replace]
    have hpos : 0 < l.countP (fun item => item.key == r.key) :=
      List.countP_pos_iff.mpr (by simpa using List.any_eq_true.mp hany)
    omega
  · rw [if_neg hany]
    have hzero : l.countP (fun item => item.key == r.key) = 0 := by
      rw [List.countP_eq_zero]
      intro a ha hcon
      exact hany (List.any_eq_true.mpr ⟨a, ha, hcon⟩)
    simp [List.countP_append, List.countP_cons, hzero]

/-- C3 amended: the two queue implementations differ.  The localStorage-backed
enqueue appends unconditionally, so enqueueing the same record twice adds two
entries with its key; the IndexedDB-backed enqueue (`store.put` with the key
as `keyPath`) is idempotent: starting from a buffer with at most one entry
for the key, two enqueues leave exactly one record with that key. -/
theorem c3_enqueue_backends (r : MediaItem) (buffer : List MediaItem)
    (h : buffer.countP (fun item => item.key == r.key) ≤ 1) :
    (saveMediaToLocalBuffer r (saveMediaToLocalBuffer r buffer)).countP
        (fun item => item.key == r.key)
      = buffer.countP (fun item => item.key == r.key) + 2 ∧
    (saveMediaToLocalBufferIDB r (saveMediaToLocalBufferIDB r buffer)).countP
        (fun item => item.key == r.key) = 1 := by
  constructor
  · simp [saveMediaToLocalBuffer, List.countP_append, List.countP_cons]
  · have h1 := idb_put_countP r buffer h
    exact idb_put_countP r (saveMediaToLocalBufferIDB r buffer) (le_of_eq h1)

/-- Witness for C3 amended starting from the empty buffer. -/
theorem c3_enqueue_backends_witness :
    ([] : List MediaItem).countP (fun item => item.key == itemA.key) ≤ 1 ∧
    (saveMediaToLocalBuffer itemA (saveMediaToLocalBuffer itemA [])).countP
        (fun item => item.key == itemA.key)
      = ([] : List MediaItem).countP (fun item => item.key == itemA.key) + 2 ∧
    (saveMediaToLocalBufferIDB itemA (saveMediaToLocalBufferIDB itemA [])).countP
        (fun item => item.key == itemA.key) = 1 :=
  ⟨by decide, c3_enqueue_backends itemA [] (by decide)⟩

/-- C1 counterexample: a reconciliation pass over the snapshot with two
records, where the first upload succeeds and the second fails, leaves the
entire queue unchanged (both records), not just the failed record: nothing is
removed per-record and the failed upload aborts the pass. -/
theorem c1_counterexample :
    exOk (uploadMediaToS3 itemA cfgA envFailB).1 = true ∧
    exOk (uploadMediaToS3 itemB cfgA envFailB).1 = false ∧
    (uploadBufferedMediaToS3 [itemA, itemB] cfgA envFailB [itemA, itemB]).2
      = [itemA, itemB] ∧
    [itemA, itemB] ≠ [itemB] := by
  refine ⟨by decide, by decide, by decide, by decide⟩

/-- The upload loop attempts records in snapshot order up to and including the
first failing record: its success flag is the conjunction of the per-item
successes, and its call trace is the concatenation of the traces of the
successful head segment followed by the trace of the first failing record, if
any. -/
theorem uploadBufferedLoop_spec (config : S3Config) (env : RemoteEnv)
    (items : List MediaItem) :
    exOk (uploadBufferedLoop items config env).1
      = items.all (fun m => exOk (uploadMediaToS3 m config env).1) ∧
    (uploadBufferedLoop items config env).2
      = ((items.takeWhile (fun m => exOk (uploadMediaToS3 m config env).1)).map
          (fun m => (uploadMediaToS3 m config env).2)).flatten ++
        (match items.dropWhile (fun m => exOk (uploadMediaToS3 m config env).1) with
         | [] => []
         | m :: _ => (uploadMediaToS3 m config env).2) := by
  induction items with
  | nil => exact ⟨rfl, rfl⟩
  | cons m rest ih =>
    unfold uploadBufferedLoop
    cases hm : uploadMediaToS3 m config env with
    | mk r1 c1 =>
      cases r1 with
      | error e =>
        have hp : exOk (uploadMediaToS3 m config env).1 = false := by
          rw [hm]; rfl
        have htw := List.takeWhile_cons_of_neg
          (l := rest) (p := fun x => exOk (uploadMediaToS3 x config env).1)
          (a := m) (by simp [hp])
        have hdw := List.dropWhile_cons_of_neg
          (l := rest) (p := fun x => exOk (uploadMediaToS3 x config env).1)
          (a := m) (by simp [hp])
        simp only [hm]
        constructor
        · rw [List.all_cons, hp]
          rfl
        · rw [htw, hdw]
          simp [hm]
      | ok u =>
        have hp : exOk (uploadMediaToS3 m config env).1 = true := by
          rw [hm]; rfl
        cases u
        have htw := List.takeWhile_cons_of_pos
          (l := rest) (p := fun x => exOk (uploadMediaToS3 x config env).1)
          (a := m) hp
        have hdw := List.dropWhile_cons_of_pos
          (l := rest) (p := fun x => exOk (uploadMediaToS3 x config env).1)
          (a := m) hp
        simp only [hm]
        cases hrest : uploadBufferedLoop rest config env with
        | mk r2 c2 =>
          rw [hrest] at ih
          simp only [hrest]
          constructor
          · rw [List.all_cons, hp, Bool.true_and]
            exact ih.1
          · rw [htw, hdw, List.map_cons, List.flatten_cons, hm,
              List.append_assoc, ← ih.2]

/-- C1 amended: under a complete configuration, a reconciliation pass is
all-or-nothing.  Records are attempted in snapshot order up to and including
the first failure; a failure aborts the pass and leaves the queue entirely
unchanged (no per-record removal happens), and only when every record
uploads successfully is the buffer cleared, in one batched clear, leaving it
empty.  The pass reports success exactly when every record succeeded. -/
theorem c1_pass_all_or_nothing (items : List MediaItem) (config : S3Config)
    (env : RemoteEnv) (queue : List MediaItem)
    (hc : configComplete config = true) :
    (uploadBufferedMediaToS3 items config env queue).2
      = (if items.all (fun m => exOk (uploadMediaToS3 m config env).1)
         then [] else queue) ∧
    exOk (uploadBufferedMediaToS3 items config env queue).1.1
      = items.all (fun m => exOk (uploadMediaToS3 m config env).1) ∧
    (uploadBufferedMediaToS3 items config env queue).1.2
      = ((items.takeWhile (fun m => exOk (uploadMediaToS3 m config env).1)).map
          (fun m => (uploadMediaToS3 m config env).2)).flatten ++
        (match items.dropWhile (fun m => exOk (uploadMediaToS3 m config env).1) with
         | [] => []
         | m :: _ => (uploadMediaToS3 m config env).2) := by
  have hl := uploadBufferedLoop_spec config env items
  unfold uploadBufferedMediaToS3
  rw [if_pos hc]
  cases hloop : uploadBufferedLoop items config env with
  | mk r calls =>
    rw [hloop] at hl
    cases r with
    | ok u =>
      cases u
      have hall : items.all (fun m => exOk (uploadMediaToS3 m config env).1) = true := by
        rw [← hl.1]; rfl
      refine ⟨?_, ?_, ?_⟩
      · rw [hall]
        rfl
      · exact hl.1
      · exact hl.2
    | error e =>
      have hall : items.all (fun m => exOk (uploadMediaToS3 m config env).1) = false := by
        rw [← hl.1]; rfl
      refine ⟨?_, ?_, ?_⟩
      · rw [hall]
        rfl
      · exact hl.1
      · exact hl.2

/-- Witness for C1 amended: a pass in which the second record fails leaves
the queue unchanged. -/
theorem c1_pass_all_or_nothing_witness :
    configComplete cfgA = true ∧
    (uploadBufferedMediaToS3 [itemA, itemB] cfgA envFailB [itemA, itemB]).2
      = (if [itemA, itemB].all (fun m => exOk (uploadMediaToS3 m cfgA envFailB).1)
         then [] else [itemA, itemB]) :=
  ⟨by decide,
   (c1_pass_all_or_nothing [itemA, itemB] cfgA envFailB [itemA, itemB] (by decide)).1⟩
